import Mathlib

/-!
# Peloton `network/error_util.h`

A shallow embedding of `src/include/network/error_util.h`:

* `ErrorUtil::LogErrno`, the switch that turns the process-global `errno`
  into one trace line;
* `EventUtil`, the checked wrappers around six libevent calls
  (`Wrap` with the predicates `NotNull`, `IsZero`, `NonNegative`).

Machine `int` values are embedded as `Int`: the code only compares them
(`==`, `>=`, `switch`) and passes them through, so no arithmetic can overflow.
Pointers are embedded as addresses, the null pointer being address `0`.
What the header takes from elsewhere (the `errno` macros of `<errno.h>`, the
`LOG_TRACE` macro, `NetworkProcessException`, libevent itself) is either a
parameter of the embedding or modelled from the specification, as stated on
each definition.
-/

namespace peloton
namespace network

/-! ## The environment of the header -/

/-- The eleven `<errno.h>` macros that `LogErrno` switches on. Their values
are platform constants that the header does not fix, so they are a parameter
of the embedding. -/
structure ErrnoCodes where
  EINTR : Int
  EAGAIN : Int
  EBADF : Int
  EDESTADDRREQ : Int
  EDQUOT : Int
  EFAULT : Int
  EFBIG : Int
  EINVAL : Int
  EIO : Int
  ENOSPC : Int
  EPIPE : Int

namespace ErrnoCodes

/-- The case labels of the switch in `LogErrno`, in source order. -/
def labels (E : ErrnoCodes) : List Int :=
  [E.EINTR, E.EAGAIN, E.EBADF, E.EDESTADDRREQ, E.EDQUOT, E.EFAULT, E.EFBIG,
   E.EINVAL, E.EIO, E.ENOSPC, E.EPIPE]

/-- The case labels are pairwise different. A C++ `switch` with two equal
case labels is ill-formed, so this holds on every platform on which the
header compiles. -/
def Distinct (E : ErrnoCodes) : Prop := E.labels.Nodup

/-- The error macros are positive, as ISO C (7.5) and POSIX require of every
`errno` macro. -/
def Positive (E : ErrnoCodes) : Prop := ∀ c ∈ E.labels, 0 < c

/-- A code is recognised when it is one of the eleven case labels. -/
def Recognised (E : ErrnoCodes) (c : Int) : Prop := c ∈ E.labels

instance (E : ErrnoCodes) : Decidable E.Distinct :=
  inferInstanceAs (Decidable E.labels.Nodup)

instance (E : ErrnoCodes) : Decidable E.Positive :=
  inferInstanceAs (Decidable (∀ c ∈ E.labels, 0 < c))

instance (E : ErrnoCodes) (c : Int) : Decidable (E.Recognised c) :=
  inferInstanceAs (Decidable (c ∈ E.labels))

/-- The values of the eleven macros on Linux (asm-generic), used as the
concrete instance of the parameter. -/
def linux : ErrnoCodes where
  EINTR := 4
  EAGAIN := 11
  EBADF := 9
  EDESTADDRREQ := 89
  EDQUOT := 122
  EFAULT := 14
  EFBIG := 27
  EINVAL := 22
  EIO := 5
  ENOSPC := 28
  EPIPE := 32

end ErrnoCodes

/-- Severity of a log line. Only the trace level is used by this header. -/
inductive LogLevel where
  | TRACE
  | DEBUG
  | INFO
  | WARN
  | ERROR
  deriving DecidableEq, Repr

/-- One emitted log line: its level and its text. -/
structure LogLine where
  level : LogLevel
  text : String
  deriving DecidableEq, Repr

/-- The part of the process state that `LogErrno` can touch: the
process-global last-error code and the lines emitted to the log so far. -/
structure Process where
  errno : Int
  log : List LogLine
  deriving DecidableEq, Repr

/-- Modelled from the spec: the `LOG_TRACE` macro of `common/logger.h`, which
is not part of the sources at hand. The specification describes it as a
trace-level sink accepting a formatted string, fire and forget; it is
embedded as appending one trace-level line to the log and touching nothing
else. -/
def LOG_TRACE (msg : String) (p : Process) : Process :=
  ⟨p.errno, p.log ++ [⟨LogLevel.TRACE, msg⟩]⟩

/-- Modelled from the spec: `NetworkProcessException` of `common/exception.h`,
which is not part of the sources at hand. The specification describes it as a
typed failure carrying a string message. -/
structure NetworkProcessException where
  message : String
  deriving DecidableEq, Repr

/-- A C pointer, embedded as its address. -/
structure Ptr where
  addr : Nat
  deriving DecidableEq, Repr

/-- The null pointer. -/
def nullptr : Ptr := ⟨0⟩

/-- The six libevent operations the header calls, over an explicit state `W`
of the library and everything it can reach. libevent is external to the
repository, so it is a parameter: each operation maps its arguments and the
state before the call to its C return value and the state after the call. -/
structure Libevent (W : Type) where
  event_base_new : W → Ptr × W
  event_base_loopexit : (base : Ptr) → (timeout : Ptr) → W → Int × W
  event_del : (event : Ptr) → W → Int × W
  event_add : (event : Ptr) → (timeout : Ptr) → W → Int × W
  event_assign : (event : Ptr) → (base : Ptr) → (fd : Int) → (flags : Int) →
    (callback : Ptr) → (arg : Ptr) → W → Int × W
  event_base_dispatch : (base : Ptr) → W → Int × W

/-! ## `ErrorUtil` -/

namespace ErrorUtil

/-- `ErrorUtil::LogErrno` (lines 36-74): a switch on `errno`, one `LOG_TRACE`
per case, every case closed by `break`, and a `default` case. The function
is `void` and has no `throw`, hence a state transformer without a failure
channel. -/
def LogErrno (E : ErrnoCodes) (p : Process) : Process :=
  if p.errno = E.EINTR then LOG_TRACE "Error Writing: EINTR" p
  else if p.errno = E.EAGAIN then LOG_TRACE "Error Writing: EAGAIN" p
  else if p.errno = E.EBADF then LOG_TRACE "Error Writing: EBADF" p
  else if p.errno = E.EDESTADDRREQ then LOG_TRACE "Error Writing: EDESTADDRREQ" p
  else if p.errno = E.EDQUOT then LOG_TRACE "Error Writing: EDQUOT" p
  else if p.errno = E.EFAULT then LOG_TRACE "Error Writing: EFAULT" p
  else if p.errno = E.EFBIG then LOG_TRACE "Error Writing: EFBIG" p
  else if p.errno = E.EINVAL then LOG_TRACE "Error Writing: EINVAL" p
  else if p.errno = E.EIO then LOG_TRACE "Error Writing: EIO" p
  else if p.errno = E.ENOSPC then LOG_TRACE "Error Writing: ENOSPC" p
  else if p.errno = E.EPIPE then LOG_TRACE "Error Writing: EPIPE" p
  else LOG_TRACE "Error Writing: UNKNOWN" p

/-- The lines a run of `LogErrno` adds to the log: what the log holds after
the call beyond what it held before. -/
def emitted (E : ErrnoCodes) (p : Process) : List LogLine :=
  (LogErrno E p).log.drop p.log.length

end ErrorUtil

/-! ## `EventUtil` -/

namespace EventUtil

/-- `EventUtil::NotNull` (lines 87-90). -/
def NotNull (ptr : Ptr) : Bool := ptr != nullptr

/-- `EventUtil::IsZero` (lines 92-94). -/
def IsZero (arg : Int) : Bool := arg == 0

/-- `EventUtil::NonNegative` (lines 96-98). -/
def NonNegative (arg : Int) : Bool := decide (arg ≥ 0)

/-- `EventUtil::Wrap` (lines 100-104): throw when the check fails, else
return the value. A thrown exception is the `error` side of `Except`. -/
def Wrap {T : Type} (value : T) (check : T → Bool) (error_msg : String) :
    Except NetworkProcessException T :=
  if !check value then Except.error ⟨error_msg⟩ else Except.ok value

/-- `EventUtil::EventBaseNew` (lines 109-111). The result pairs what the
caller observes (a returned value or a thrown exception) with the state
after the call. -/
def EventBaseNew {W : Type} (L : Libevent W) (w : W) :
    Except NetworkProcessException Ptr × W :=
  let r := L.event_base_new w
  (Wrap r.1 NotNull "Can't allocate event base", r.2)

/-- `EventUtil::EventBaseLoopExit` (lines 113-115). -/
def EventBaseLoopExit {W : Type} (L : Libevent W) (base timeout : Ptr) (w : W) :
    Except NetworkProcessException Int × W :=
  let r := L.event_base_loopexit base timeout w
  (Wrap r.1 IsZero "Error when exiting loop", r.2)

/-- `EventUtil::EventDel` (lines 117-119). -/
def EventDel {W : Type} (L : Libevent W) (event : Ptr) (w : W) :
    Except NetworkProcessException Int × W :=
  let r := L.event_del event w
  (Wrap r.1 IsZero "Error when deleting event", r.2)

/-- `EventUtil::EventAdd` (lines 121-123). -/
def EventAdd {W : Type} (L : Libevent W) (event timeout : Ptr) (w : W) :
    Except NetworkProcessException Int × W :=
  let r := L.event_add event timeout w
  (Wrap r.1 IsZero "Error when adding event", r.2)

/-- `EventUtil::EventAssign` (lines 125-128). -/
def EventAssign {W : Type} (L : Libevent W) (event base : Ptr) (fd : Int)
    (flags : Int) (callback arg : Ptr) (w : W) :
    Except NetworkProcessException Int × W :=
  let r := L.event_assign event base fd flags callback arg w
  (Wrap r.1 IsZero "Error when assigning event", r.2)

/-- `EventUtil::EventBaseDispatch` (lines 130-132). -/
def EventBaseDispatch {W : Type} (L : Libevent W) (base : Ptr) (w : W) :
    Except NetworkProcessException Int × W :=
  let r := L.event_base_dispatch base w
  (Wrap r.1 NonNegative "Error in event base dispatch", r.2)

end EventUtil

/-! ## Observing calls -/

/-- The message of the exception a call raised, `none` when it returned. -/
def raisedMessage {T : Type} : Except NetworkProcessException T → Option String
  | Except.error e => some e.message
  | Except.ok _ => none

/-- A call raised when it ended in an exception. -/
def raises {T : Type} (o : Except NetworkProcessException T) : Bool :=
  (raisedMessage o).isSome

/-- One call of a libevent operation together with its arguments, in the
order of the C signature. -/
inductive NativeCall where
  | event_base_new
  | event_base_loopexit (base timeout : Ptr)
  | event_del (event : Ptr)
  | event_add (event timeout : Ptr)
  | event_assign (event base : Ptr) (fd flags : Int) (callback arg : Ptr)
  | event_base_dispatch (base : Ptr)
  deriving DecidableEq, Repr

/-- A libevent stand-in whose state is the history of the calls made on it:
every operation appends its own call, arguments included, and answers with a
prescribed value. It makes the number and the arguments of the native calls
observable. -/
def recordingLib (newBase : Ptr) (status : NativeCall → Int) :
    Libevent (List NativeCall) where
  event_base_new := fun w => (newBase, w ++ [NativeCall.event_base_new])
  event_base_loopexit := fun base timeout w =>
    (status (NativeCall.event_base_loopexit base timeout),
      w ++ [NativeCall.event_base_loopexit base timeout])
  event_del := fun event w =>
    (status (NativeCall.event_del event), w ++ [NativeCall.event_del event])
  event_add := fun event timeout w =>
    (status (NativeCall.event_add event timeout),
      w ++ [NativeCall.event_add event timeout])
  event_assign := fun event base fd flags callback arg w =>
    (status (NativeCall.event_assign event base fd flags callback arg),
      w ++ [NativeCall.event_assign event base fd flags callback arg])
  event_base_dispatch := fun base w =>
    (status (NativeCall.event_base_dispatch base),
      w ++ [NativeCall.event_base_dispatch base])

/-- The six checked entry points of `EventUtil`. -/
inductive EntryPoint where
  | EventBaseNew
  | EventBaseLoopExit
  | EventDel
  | EventAdd
  | EventAssign
  | EventBaseDispatch
  deriving DecidableEq, Repr

/-- The entry point of `EventUtil` that stands in for a native call: the
wrapper has the signature of the operation it wraps. -/
def NativeCall.entryPoint : NativeCall → EntryPoint
  | NativeCall.event_base_new => EntryPoint.EventBaseNew
  | NativeCall.event_base_loopexit _ _ => EntryPoint.EventBaseLoopExit
  | NativeCall.event_del _ => EntryPoint.EventDel
  | NativeCall.event_add _ _ => EntryPoint.EventAdd
  | NativeCall.event_assign _ _ _ _ _ _ => EntryPoint.EventAssign
  | NativeCall.event_base_dispatch _ => EntryPoint.EventBaseDispatch

/-- Runs a call through its checked entry point and reports the message of
the exception raised, if any. -/
def NativeCall.checkedFailure {W : Type} (L : Libevent W) (w : W) :
    NativeCall → Option String
  | NativeCall.event_base_new => raisedMessage (EventUtil.EventBaseNew L w).1
  | NativeCall.event_base_loopexit base timeout =>
      raisedMessage (EventUtil.EventBaseLoopExit L base timeout w).1
  | NativeCall.event_del event => raisedMessage (EventUtil.EventDel L event w).1
  | NativeCall.event_add event timeout =>
      raisedMessage (EventUtil.EventAdd L event timeout w).1
  | NativeCall.event_assign event base fd flags callback arg =>
      raisedMessage (EventUtil.EventAssign L event base fd flags callback arg w).1
  | NativeCall.event_base_dispatch base =>
      raisedMessage (EventUtil.EventBaseDispatch L base w).1

/-! ## Devices of the proofs -/

/-- The text `LogErrno` logs for a code: the switch read as a function of
the code alone. It is tied to the code by `ErrorUtil.LogErrno_eq`. -/
def ErrorUtil.switchText (E : ErrnoCodes) (c : Int) : String :=
  if c = E.EINTR then "Error Writing: EINTR"
  else if c = E.EAGAIN then "Error Writing: EAGAIN"
  else if c = E.EBADF then "Error Writing: EBADF"
  else if c = E.EDESTADDRREQ then "Error Writing: EDESTADDRREQ"
  else if c = E.EDQUOT then "Error Writing: EDQUOT"
  else if c = E.EFAULT then "Error Writing: EFAULT"
  else if c = E.EFBIG then "Error Writing: EFBIG"
  else if c = E.EINVAL then "Error Writing: EINVAL"
  else if c = E.EIO then "Error Writing: EIO"
  else if c = E.ENOSPC then "Error Writing: ENOSPC"
  else if c = E.EPIPE then "Error Writing: EPIPE"
  else "Error Writing: UNKNOWN"

/-- Reads a logged text back into the case label it was logged for. -/
def ErrorUtil.codeOf (E : ErrnoCodes) (s : String) : Option Int :=
  if s = "Error Writing: EINTR" then some E.EINTR
  else if s = "Error Writing: EAGAIN" then some E.EAGAIN
  else if s = "Error Writing: EBADF" then some E.EBADF
  else if s = "Error Writing: EDESTADDRREQ" then some E.EDESTADDRREQ
  else if s = "Error Writing: EDQUOT" then some E.EDQUOT
  else if s = "Error Writing: EFAULT" then some E.EFAULT
  else if s = "Error Writing: EFBIG" then some E.EFBIG
  else if s = "Error Writing: EINVAL" then some E.EINVAL
  else if s = "Error Writing: EIO" then some E.EIO
  else if s = "Error Writing: ENOSPC" then some E.ENOSPC
  else if s = "Error Writing: EPIPE" then some E.EPIPE
  else none

/-! ## Sanity checks of the embedding on concrete inputs -/

example : (ErrorUtil.LogErrno ErrnoCodes.linux ⟨32, []⟩).log =
    [⟨LogLevel.TRACE, "Error Writing: EPIPE"⟩] := by decide

example : (ErrorUtil.LogErrno ErrnoCodes.linux ⟨0, []⟩).log =
    [⟨LogLevel.TRACE, "Error Writing: UNKNOWN"⟩] := by decide

example : EventUtil.EventDel (recordingLib ⟨1⟩ (fun _ => 0)) ⟨7⟩ [] =
    (Except.ok 0, [NativeCall.event_del ⟨7⟩]) := rfl

example : EventUtil.EventBaseNew (recordingLib nullptr (fun _ => 0)) [] =
    (Except.error ⟨"Can't allocate event base"⟩, [NativeCall.event_base_new]) := rfl

/-! ## Auxiliary facts -/

namespace EventUtil

lemma NotNull_eq_true_iff (ptr : Ptr) : NotNull ptr = true ↔ ptr ≠ nullptr := by
  simp [NotNull]

lemma IsZero_eq_true_iff (arg : Int) : IsZero arg = true ↔ arg = 0 := by
  simp [IsZero]

lemma NonNegative_eq_true_iff (arg : Int) : NonNegative arg = true ↔ 0 ≤ arg := by
  simp [NonNegative]

lemma Wrap_of_check {T : Type} (value : T) (check : T → Bool) (error_msg : String)
    (h : check value = true) : Wrap value check error_msg = Except.ok value := by
  simp [Wrap, h]

lemma Wrap_of_not_check {T : Type} (value : T) (check : T → Bool) (error_msg : String)
    (h : check value = false) :
    Wrap value check error_msg = Except.error ⟨error_msg⟩ := by
  simp [Wrap, h]

lemma raises_Wrap {T : Type} (value : T) (check : T → Bool) (error_msg : String) :
    raises (Wrap value check error_msg) = !check value := by
  cases h : check value <;> simp [Wrap, h, raises, raisedMessage]

lemma raisedMessage_Wrap {T : Type} (value : T) (check : T → Bool)
    (error_msg m : String) (h : raisedMessage (Wrap value check error_msg) = some m) :
    m = error_msg := by
  cases hc : check value <;> simp [Wrap, hc, raisedMessage] at h
  exact h.symm

end EventUtil

namespace ErrorUtil

lemma ite_cases {α : Type} (P : α → Prop) (c : Prop) [Decidable c] (a b : α)
    (ha : c → P a) (hb : ¬c → P b) : P (if c then a else b) := by
  by_cases h : c
  · rw [if_pos h]; exact ha h
  · rw [if_neg h]; exact hb h

lemma LOG_TRACE_ite (c : Prop) [Decidable c] (a b : String) (p : Process) :
    (if c then LOG_TRACE a p else LOG_TRACE b p) =
      LOG_TRACE (if c then a else b) p := by
  by_cases h : c
  · rw [if_pos h, if_pos h]
  · rw [if_neg h, if_neg h]

/-- The switch logs `switchText` of the code, through one `LOG_TRACE`. -/
lemma LogErrno_eq (E : ErrnoCodes) (p : Process) :
    LogErrno E p = LOG_TRACE (switchText E p.errno) p := by
  simp only [LogErrno, switchText, LOG_TRACE_ite]

lemma LogErrno_log (E : ErrnoCodes) (p : Process) :
    (LogErrno E p).log = p.log ++ [⟨LogLevel.TRACE, switchText E p.errno⟩] := by
  rw [LogErrno_eq]; rfl

lemma LogErrno_errno (E : ErrnoCodes) (p : Process) :
    (LogErrno E p).errno = p.errno := by
  rw [LogErrno_eq]; rfl

lemma emitted_eq (E : ErrnoCodes) (p : Process) :
    emitted E p = [⟨LogLevel.TRACE, switchText E p.errno⟩] := by
  simp [emitted, LogErrno_log]

/-- Decoding the logged text gives back the code exactly when the code is a
case label. -/
lemma codeOf_switchText (E : ErrnoCodes) (c : Int) :
    codeOf E (switchText E c) = if E.Recognised c then some c else none := by
  unfold switchText
  repeat' first
    | refine ite_cases
        (fun s => codeOf E s = if E.Recognised c then some c else none) _ _ _
        (fun h => ?_) (fun h => ?_)
  all_goals simp [codeOf, ErrnoCodes.Recognised, ErrnoCodes.labels, *]

lemma switchText_unknown_iff (E : ErrnoCodes) (c : Int) :
    switchText E c = "Error Writing: UNKNOWN" ↔ ¬ E.Recognised c := by
  constructor
  · intro h hc
    have hdec := codeOf_switchText E c
    rw [h, if_pos hc] at hdec
    simp [codeOf] at hdec
  · intro hc
    simp only [ErrnoCodes.Recognised, ErrnoCodes.labels, List.mem_cons,
      List.mem_singleton, List.not_mem_nil, or_false, not_or] at hc
    simp [switchText, hc]

lemma switchText_eq_iff (E : ErrnoCodes) (c₁ c₂ : Int) :
    switchText E c₁ = switchText E c₂ ↔
      c₁ = c₂ ∨ (¬ E.Recognised c₁ ∧ ¬ E.Recognised c₂) := by
  constructor
  · intro h
    have h₁ := codeOf_switchText E c₁
    have h₂ := codeOf_switchText E c₂
    rw [h] at h₁
    rw [h₁] at h₂
    by_cases r₁ : E.Recognised c₁ <;> by_cases r₂ : E.Recognised c₂ <;>
      simp [r₁, r₂] at h₂
    · exact Or.inl h₂
    · exact Or.inr ⟨r₁, r₂⟩
  · rintro (h | ⟨r₁, r₂⟩)
    · rw [h]
    · rw [(switchText_unknown_iff E c₁).2 r₁, (switchText_unknown_iff E c₂).2 r₂]

end ErrorUtil

/-! ## `EventUtil`: the checked entry points -/

/-- C1. Whenever the native call's result satisfies the entry point's success
predicate (non-null for `EventBaseNew`; zero for `EventBaseLoopExit`,
`EventDel`, `EventAdd`, `EventAssign`; non-negative for `EventBaseDispatch`),
the wrapped call returns exactly that result and raises nothing. -/
theorem EventUtil.success_passes_through {W : Type} (L : Libevent W) (w : W)
    (base event timeout callback arg : Ptr) (fd flags : Int) :
    (∀ r w', L.event_base_new w = (r, w') → r ≠ nullptr →
      (EventUtil.EventBaseNew L w).1 = Except.ok r) ∧
    (∀ r w', L.event_base_loopexit base timeout w = (r, w') → r = 0 →
      (EventUtil.EventBaseLoopExit L base timeout w).1 = Except.ok r) ∧
    (∀ r w', L.event_del event w = (r, w') → r = 0 →
      (EventUtil.EventDel L event w).1 = Except.ok r) ∧
    (∀ r w', L.event_add event timeout w = (r, w') → r = 0 →
      (EventUtil.EventAdd L event timeout w).1 = Except.ok r) ∧
    (∀ r w', L.event_assign event base fd flags callback arg w = (r, w') → r = 0 →
      (EventUtil.EventAssign L event base fd flags callback arg w).1 = Except.ok r) ∧
    (∀ r w', L.event_base_dispatch base w = (r, w') → 0 ≤ r →
      (EventUtil.EventBaseDispatch L base w).1 = Except.ok r) := by
  refine ⟨?_, ?_, ?_, ?_, ?_, ?_⟩ <;> intro r w' hcall hr
  · simp only [EventUtil.EventBaseNew, hcall]
    exact EventUtil.Wrap_of_check _ _ _ ((EventUtil.NotNull_eq_true_iff r).2 hr)
  · simp only [EventUtil.EventBaseLoopExit, hcall]
    exact EventUtil.Wrap_of_check _ _ _ ((EventUtil.IsZero_eq_true_iff r).2 hr)
  · simp only [EventUtil.EventDel, hcall]
    exact EventUtil.Wrap_of_check _ _ _ ((EventUtil.IsZero_eq_true_iff r).2 hr)
  · simp only [EventUtil.EventAdd, hcall]
    exact EventUtil.Wrap_of_check _ _ _ ((EventUtil.IsZero_eq_true_iff r).2 hr)
  · simp only [EventUtil.EventAssign, hcall]
    exact EventUtil.Wrap_of_check _ _ _ ((EventUtil.IsZero_eq_true_iff r).2 hr)
  · simp only [EventUtil.EventBaseDispatch, hcall]
    exact EventUtil.Wrap_of_check _ _ _ ((EventUtil.NonNegative_eq_true_iff r).2 hr)

/-- Witness for C1: `EventDel` over a native `event_del` that answers 0
returns 0 and raises nothing. -/
theorem EventUtil.success_passes_through_witness :
    (EventUtil.EventDel (recordingLib ⟨1⟩ (fun _ => 0)) ⟨7⟩ []).1 = Except.ok 0 :=
  (EventUtil.success_passes_through (recordingLib ⟨1⟩ (fun _ => 0)) []
    ⟨3⟩ ⟨7⟩ ⟨0⟩ ⟨0⟩ ⟨0⟩ 0 0).2.2.1 0 [NativeCall.event_del ⟨7⟩] rfl rfl

/-- C2. Whenever the native call's result violates the entry point's success
predicate, the wrapped call returns no value: it raises a
`NetworkProcessException` whose message is the fixed string of that entry
point, whatever the offending result is. -/
theorem EventUtil.failure_raises_fixed_message {W : Type} (L : Libevent W) (w : W)
    (base event timeout callback arg : Ptr) (fd flags : Int) :
    (∀ r w', L.event_base_new w = (r, w') → r = nullptr →
      (EventUtil.EventBaseNew L w).1 =
        Except.error ⟨"Can't allocate event base"⟩) ∧
    (∀ r w', L.event_base_loopexit base timeout w = (r, w') → r ≠ 0 →
      (EventUtil.EventBaseLoopExit L base timeout w).1 =
        Except.error ⟨"Error when exiting loop"⟩) ∧
    (∀ r w', L.event_del event w = (r, w') → r ≠ 0 →
      (EventUtil.EventDel L event w).1 =
        Except.error ⟨"Error when deleting event"⟩) ∧
    (∀ r w', L.event_add event timeout w = (r, w') → r ≠ 0 →
      (EventUtil.EventAdd L event timeout w).1 =
        Except.error ⟨"Error when adding event"⟩) ∧
    (∀ r w', L.event_assign event base fd flags callback arg w = (r, w') → r ≠ 0 →
      (EventUtil.EventAssign L event base fd flags callback arg w).1 =
        Except.error ⟨"Error when assigning event"⟩) ∧
    (∀ r w', L.event_base_dispatch base w = (r, w') → r < 0 →
      (EventUtil.EventBaseDispatch L base w).1 =
        Except.error ⟨"Error in event base dispatch"⟩) := by
  refine ⟨?_, ?_, ?_, ?_, ?_, ?_⟩ <;> intro r w' hcall hr
  · simp only [EventUtil.EventBaseNew, hcall]
    exact EventUtil.Wrap_of_not_check _ _ _ (by simp [EventUtil.NotNull, hr])
  · simp only [EventUtil.EventBaseLoopExit, hcall]
    exact EventUtil.Wrap_of_not_check _ _ _ (by simp [EventUtil.IsZero, hr])
  · simp only [EventUtil.EventDel, hcall]
    exact EventUtil.Wrap_of_not_check _ _ _ (by simp [EventUtil.IsZero, hr])
  · simp only [EventUtil.EventAdd, hcall]
    exact EventUtil.Wrap_of_not_check _ _ _ (by simp [EventUtil.IsZero, hr])
  · simp only [EventUtil.EventAssign, hcall]
    exact EventUtil.Wrap_of_not_check _ _ _ (by simp [EventUtil.IsZero, hr])
  · simp only [EventUtil.EventBaseDispatch, hcall]
    exact EventUtil.Wrap_of_not_check _ _ _ (by simp [EventUtil.NonNegative, hr])

/-- Witness for C2: `EventBaseNew` over a native `event_base_new` that
answers the null pointer raises with message "Can't allocate event base". -/
theorem EventUtil.failure_raises_fixed_message_witness :
    (EventUtil.EventBaseNew (recordingLib nullptr (fun _ => 0)) []).1 =
      Except.error ⟨"Can't allocate event base"⟩ :=
  (EventUtil.failure_raises_fixed_message (recordingLib nullptr (fun _ => 0)) []
    ⟨3⟩ ⟨7⟩ ⟨0⟩ ⟨0⟩ ⟨0⟩ 0 0).1 nullptr [NativeCall.event_base_new] rfl rfl

/-- C4. Boundaries of the integer predicates. `NonNegative` accepts zero:
`EventBaseDispatch` returns a native result of 0, and any positive one,
unchanged, and raises exactly when the native result is negative. `IsZero`
rejects every non-zero integer of either sign: `EventBaseLoopExit`,
`EventDel`, `EventAdd` and `EventAssign` raise exactly when the native result
is not 0. -/
theorem EventUtil.predicate_boundaries {W : Type} (L : Libevent W) (w : W)
    (base event timeout callback arg : Ptr) (fd flags : Int) :
    (∀ r w', L.event_base_dispatch base w = (r, w') →
      (r = 0 → (EventUtil.EventBaseDispatch L base w).1 = Except.ok 0) ∧
      (0 < r → (EventUtil.EventBaseDispatch L base w).1 = Except.ok r) ∧
      (raises (EventUtil.EventBaseDispatch L base w).1 = true ↔ r < 0)) ∧
    (∀ r w', L.event_base_loopexit base timeout w = (r, w') →
      (raises (EventUtil.EventBaseLoopExit L base timeout w).1 = true ↔ r ≠ 0)) ∧
    (∀ r w', L.event_del event w = (r, w') →
      (raises (EventUtil.EventDel L event w).1 = true ↔ r ≠ 0)) ∧
    (∀ r w', L.event_add event timeout w = (r, w') →
      (raises (EventUtil.EventAdd L event timeout w).1 = true ↔ r ≠ 0)) ∧
    (∀ r w', L.event_assign event base fd flags callback arg w = (r, w') →
      (raises (EventUtil.EventAssign L event base fd flags callback arg w).1 = true ↔
        r ≠ 0)) ∧
    EventUtil.NonNegative 0 = true ∧ EventUtil.NonNegative 1 = true ∧
    EventUtil.NonNegative (-1) = false ∧
    EventUtil.IsZero (-1) = false ∧ EventUtil.IsZero 1 = false ∧
    EventUtil.IsZero 0 = true := by
  refine ⟨?_, ?_, ?_, ?_, ?_, rfl, rfl, rfl, rfl, rfl, rfl⟩ <;> intro r w' hcall
  · simp only [EventUtil.EventBaseDispatch, hcall, EventUtil.raises_Wrap]
    refine ⟨?_, ?_, ?_⟩
    · intro hr
      subst hr
      rfl
    · intro hr
      exact EventUtil.Wrap_of_check _ _ _
        ((EventUtil.NonNegative_eq_true_iff r).2 (le_of_lt hr))
    · simp [EventUtil.NonNegative]
  · simp [EventUtil.EventBaseLoopExit, hcall, EventUtil.raises_Wrap, EventUtil.IsZero]
  · simp [EventUtil.EventDel, hcall, EventUtil.raises_Wrap, EventUtil.IsZero]
  · simp [EventUtil.EventAdd, hcall, EventUtil.raises_Wrap, EventUtil.IsZero]
  · simp [EventUtil.EventAssign, hcall, EventUtil.raises_Wrap, EventUtil.IsZero]

/-- Witness for C4: `EventBaseDispatch` over a native dispatch that answers 0
returns 0, and `EventAdd` over a native `event_add` that answers 1 raises. -/
theorem EventUtil.predicate_boundaries_witness :
    (EventUtil.EventBaseDispatch (recordingLib ⟨1⟩ (fun _ => 0)) ⟨3⟩ []).1 =
      Except.ok 0 ∧
    raises (EventUtil.EventAdd (recordingLib ⟨1⟩ (fun _ => 1)) ⟨7⟩ ⟨0⟩ []).1 = true :=
  ⟨((EventUtil.predicate_boundaries (recordingLib ⟨1⟩ (fun _ => 0)) []
      ⟨3⟩ ⟨7⟩ ⟨0⟩ ⟨0⟩ ⟨0⟩ 0 0).1 0 [NativeCall.event_base_dispatch ⟨3⟩] rfl).1 rfl,
   ((EventUtil.predicate_boundaries (recordingLib ⟨1⟩ (fun _ => 1)) []
      ⟨3⟩ ⟨7⟩ ⟨0⟩ ⟨0⟩ ⟨0⟩ 0 0).2.2.2.1 1 [NativeCall.event_add ⟨7⟩ ⟨0⟩] rfl).2
      (by decide)⟩

/-- C7. Each checked entry point calls its native operation exactly once,
with the arguments it was given in the order it was given them, and adds no
effect of its own: over any library and any state, the state after the
wrapped call is the state after one native call, whether the wrapper returns
or raises; and on a library that records its calls, the history grows by
exactly that one call, whatever the native call answers. -/
theorem EventUtil.forwards_exactly_once {W : Type} (L : Libevent W) (w : W)
    (base event timeout callback arg : Ptr) (fd flags : Int)
    (newBase : Ptr) (status : NativeCall → Int) (history : List NativeCall) :
    ((EventUtil.EventBaseNew L w).2 = (L.event_base_new w).2 ∧
     (EventUtil.EventBaseLoopExit L base timeout w).2 =
       (L.event_base_loopexit base timeout w).2 ∧
     (EventUtil.EventDel L event w).2 = (L.event_del event w).2 ∧
     (EventUtil.EventAdd L event timeout w).2 = (L.event_add event timeout w).2 ∧
     (EventUtil.EventAssign L event base fd flags callback arg w).2 =
       (L.event_assign event base fd flags callback arg w).2 ∧
     (EventUtil.EventBaseDispatch L base w).2 = (L.event_base_dispatch base w).2) ∧
    ((EventUtil.EventBaseNew (recordingLib newBase status) history).2 =
       history ++ [NativeCall.event_base_new] ∧
     (EventUtil.EventBaseLoopExit (recordingLib newBase status) base timeout history).2 =
       history ++ [NativeCall.event_base_loopexit base timeout] ∧
     (EventUtil.EventDel (recordingLib newBase status) event history).2 =
       history ++ [NativeCall.event_del event] ∧
     (EventUtil.EventAdd (recordingLib newBase status) event timeout history).2 =
       history ++ [NativeCall.event_add event timeout] ∧
     (EventUtil.EventAssign (recordingLib newBase status) event base fd flags callback
         arg history).2 =
       history ++ [NativeCall.event_assign event base fd flags callback arg] ∧
     (EventUtil.EventBaseDispatch (recordingLib newBase status) base history).2 =
       history ++ [NativeCall.event_base_dispatch base]) :=
  ⟨⟨rfl, rfl, rfl, rfl, rfl, rfl⟩, ⟨rfl, rfl, rfl, rfl, rfl, rfl⟩⟩

/-- C8. The failure messages of the six checked entry points are pairwise
different: when calls through two different entry points both raise, over
any libraries, states and arguments, the two messages differ, so the message
of a raised exception tells which entry point failed. -/
theorem EventUtil.failure_messages_distinct {W₁ W₂ : Type} (L₁ : Libevent W₁)
    (L₂ : Libevent W₂) (w₁ : W₁) (w₂ : W₂) (c₁ c₂ : NativeCall) (m₁ m₂ : String)
    (h₁ : c₁.checkedFailure L₁ w₁ = some m₁) (h₂ : c₂.checkedFailure L₂ w₂ = some m₂)
    (hne : c₁.entryPoint ≠ c₂.entryPoint) : m₁ ≠ m₂ := by
  cases c₁ <;> cases c₂ <;>
    first
    | exact absurd rfl hne
    | (simp only [NativeCall.checkedFailure, EventUtil.EventBaseNew,
          EventUtil.EventBaseLoopExit, EventUtil.EventDel, EventUtil.EventAdd,
          EventUtil.EventAssign, EventUtil.EventBaseDispatch] at h₁ h₂
       have e₁ := EventUtil.raisedMessage_Wrap _ _ _ _ h₁
       have e₂ := EventUtil.raisedMessage_Wrap _ _ _ _ h₂
       rw [e₁, e₂]
       decide)

/-- Witness for C8: over a library whose calls all fail, `EventBaseNew` and
`EventDel` both raise, and with different messages. -/
theorem EventUtil.failure_messages_distinct_witness :
    NativeCall.event_base_new.checkedFailure (recordingLib nullptr (fun _ => -1)) [] =
      some "Can't allocate event base" ∧
    (NativeCall.event_del ⟨7⟩).checkedFailure (recordingLib nullptr (fun _ => -1)) [] =
      some "Error when deleting event" ∧
    "Can't allocate event base" ≠ "Error when deleting event" :=
  ⟨rfl, rfl,
   EventUtil.failure_messages_distinct (recordingLib nullptr (fun _ => -1))
     (recordingLib nullptr (fun _ => -1)) [] [] NativeCall.event_base_new
     (NativeCall.event_del ⟨7⟩) "Can't allocate event base"
     "Error when deleting event" (by rfl) (by rfl) (by decide)⟩

/-! ## `ErrorUtil::LogErrno` -/

/-- C3. For every integer code `c`, `LogErrno` run with `errno = c` emits the
trace line "Error Writing: NAME" when `c` is the recognised code NAME (one of
the eleven case labels), and "Error Writing: UNKNOWN" when `c` is any other
integer. The case labels are pairwise different, as the `switch` requires. -/
theorem ErrorUtil.LogErrno_emits_name (E : ErrnoCodes) (hE : E.Distinct)
    (c : Int) (log : List LogLine) :
    (c = E.EINTR → (ErrorUtil.LogErrno E ⟨c, log⟩).log =
      log ++ [⟨LogLevel.TRACE, "Error Writing: EINTR"⟩]) ∧
    (c = E.EAGAIN → (ErrorUtil.LogErrno E ⟨c, log⟩).log =
      log ++ [⟨LogLevel.TRACE, "Error Writing: EAGAIN"⟩]) ∧
    (c = E.EBADF → (ErrorUtil.LogErrno E ⟨c, log⟩).log =
      log ++ [⟨LogLevel.TRACE, "Error Writing: EBADF"⟩]) ∧
    (c = E.EDESTADDRREQ → (ErrorUtil.LogErrno E ⟨c, log⟩).log =
      log ++ [⟨LogLevel.TRACE, "Error Writing: EDESTADDRREQ"⟩]) ∧
    (c = E.EDQUOT → (ErrorUtil.LogErrno E ⟨c, log⟩).log =
      log ++ [⟨LogLevel.TRACE, "Error Writing: EDQUOT"⟩]) ∧
    (c = E.EFAULT → (ErrorUtil.LogErrno E ⟨c, log⟩).log =
      log ++ [⟨LogLevel.TRACE, "Error Writing: EFAULT"⟩]) ∧
    (c = E.EFBIG → (ErrorUtil.LogErrno E ⟨c, log⟩).log =
      log ++ [⟨LogLevel.TRACE, "Error Writing: EFBIG"⟩]) ∧
    (c = E.EINVAL → (ErrorUtil.LogErrno E ⟨c, log⟩).log =
      log ++ [⟨LogLevel.TRACE, "Error Writing: EINVAL"⟩]) ∧
    (c = E.EIO → (ErrorUtil.LogErrno E ⟨c, log⟩).log =
      log ++ [⟨LogLevel.TRACE, "Error Writing: EIO"⟩]) ∧
    (c = E.ENOSPC → (ErrorUtil.LogErrno E ⟨c, log⟩).log =
      log ++ [⟨LogLevel.TRACE, "Error Writing: ENOSPC"⟩]) ∧
    (c = E.EPIPE → (ErrorUtil.LogErrno E ⟨c, log⟩).log =
      log ++ [⟨LogLevel.TRACE, "Error Writing: EPIPE"⟩]) ∧
    (¬ E.Recognised c → (ErrorUtil.LogErrno E ⟨c, log⟩).log =
      log ++ [⟨LogLevel.TRACE, "Error Writing: UNKNOWN"⟩]) := by
  simp only [ErrnoCodes.Distinct, ErrnoCodes.labels, List.nodup_cons, List.mem_cons,
    List.mem_singleton, List.not_mem_nil, or_false, not_or, List.nodup_nil] at hE
  simp only [ErrorUtil.LogErrno_log]
  refine ⟨?_, ?_, ?_, ?_, ?_, ?_, ?_, ?_, ?_, ?_, ?_, ?_⟩ <;> intro h
  case refine_12 => rw [(ErrorUtil.switchText_unknown_iff E c).2 h]
  all_goals
    subst h
    simp [ErrorUtil.switchText, hE, eq_comm]

/-- Witness for C3: with the Linux values of the macros, `errno = 32`
(`EPIPE`) is logged as "Error Writing: EPIPE". -/
theorem ErrorUtil.LogErrno_emits_name_witness :
    ErrnoCodes.linux.Distinct ∧
    (ErrorUtil.LogErrno ErrnoCodes.linux ⟨32, []⟩).log =
      [] ++ [⟨LogLevel.TRACE, "Error Writing: EPIPE"⟩] :=
  ⟨by decide,
   (ErrorUtil.LogErrno_emits_name ErrnoCodes.linux (by decide) 32
      []).2.2.2.2.2.2.2.2.2.2.1 rfl⟩

/-- C5. `LogErrno` is total: for every value of `errno` and every log, it
ends (it is a function without a failure channel), appends exactly one line
to the log, that line is at trace level, and `errno` is left as it was. -/
theorem ErrorUtil.LogErrno_total (E : ErrnoCodes) (p : Process) :
    (∃ text, ErrorUtil.LogErrno E p =
      ⟨p.errno, p.log ++ [⟨LogLevel.TRACE, text⟩]⟩) ∧
    (ErrorUtil.LogErrno E p).errno = p.errno ∧
    (ErrorUtil.LogErrno E p).log.length = p.log.length + 1 ∧
    (ErrorUtil.emitted E p).length = 1 ∧
    (∀ line ∈ ErrorUtil.emitted E p, line.level = LogLevel.TRACE) := by
  refine ⟨⟨ErrorUtil.switchText E p.errno, ?_⟩, ErrorUtil.LogErrno_errno E p, ?_, ?_, ?_⟩
  · rw [ErrorUtil.LogErrno_eq]; rfl
  · simp [ErrorUtil.LogErrno_log]
  · simp [ErrorUtil.emitted_eq]
  · simp [ErrorUtil.emitted_eq]

/-- C6. Running `LogErrno` twice in succession from any state appends two
identical lines: the second call emits the line the first one emitted. -/
theorem ErrorUtil.LogErrno_twice (E : ErrnoCodes) (p : Process) :
    (∃ line, (ErrorUtil.LogErrno E p).log = p.log ++ [line] ∧
      (ErrorUtil.LogErrno E (ErrorUtil.LogErrno E p)).log = p.log ++ [line, line]) ∧
    ErrorUtil.emitted E (ErrorUtil.LogErrno E p) = ErrorUtil.emitted E p := by
  refine ⟨⟨⟨LogLevel.TRACE, ErrorUtil.switchText E p.errno⟩, ?_, ?_⟩, ?_⟩
  · exact ErrorUtil.LogErrno_log E p
  · rw [ErrorUtil.LogErrno_log, ErrorUtil.LogErrno_errno, ErrorUtil.LogErrno_log]
    simp
  · rw [ErrorUtil.emitted_eq, ErrorUtil.emitted_eq, ErrorUtil.LogErrno_errno]

/-- C9. `LogErrno` separates the code classes exactly: two codes get the same
line if and only if they are equal or both unrecognised; the line is
"Error Writing: UNKNOWN" if and only if the code is unrecognised; and, the
error macros being positive, `errno = 0` and every negative code are logged
as "Error Writing: UNKNOWN". -/
theorem ErrorUtil.LogErrno_separates (E : ErrnoCodes) (c₁ c₂ : Int)
    (log₁ log₂ : List LogLine) :
    (ErrorUtil.emitted E ⟨c₁, log₁⟩ = ErrorUtil.emitted E ⟨c₂, log₂⟩ ↔
      c₁ = c₂ ∨ (¬ E.Recognised c₁ ∧ ¬ E.Recognised c₂)) ∧
    (ErrorUtil.emitted E ⟨c₁, log₁⟩ = [⟨LogLevel.TRACE, "Error Writing: UNKNOWN"⟩] ↔
      ¬ E.Recognised c₁) ∧
    (E.Positive → c₁ ≤ 0 →
      ErrorUtil.emitted E ⟨c₁, log₁⟩ = [⟨LogLevel.TRACE, "Error Writing: UNKNOWN"⟩]) := by
  simp only [ErrorUtil.emitted_eq]
  refine ⟨?_, ?_, ?_⟩
  · rw [← ErrorUtil.switchText_eq_iff]
    simp
  · rw [← ErrorUtil.switchText_unknown_iff]
    simp
  · intro hpos hc
    have hn : ¬ E.Recognised c₁ := fun hr => absurd (hpos c₁ hr) (not_lt.mpr hc)
    rw [(ErrorUtil.switchText_unknown_iff E c₁).2 hn]

/-- Witness for C9: with the Linux values of the macros, which are positive,
`errno = 0` is logged as "Error Writing: UNKNOWN". -/
theorem ErrorUtil.LogErrno_separates_witness :
    ErrnoCodes.linux.Positive ∧
    ErrorUtil.emitted ErrnoCodes.linux ⟨0, []⟩ =
      [⟨LogLevel.TRACE, "Error Writing: UNKNOWN"⟩] :=
  ⟨by decide,
   (ErrorUtil.LogErrno_separates ErrnoCodes.linux 0 0 [] []).2.2 (by decide)
     (by decide)⟩

end network
end peloton
